import Mathlib

/-!
Verification of the site lifecycle orchestrator and broadcast layer of the
jekyll-studio-api repository.  The registry, build/serve/stop/delete
operations, the port allocator, the file-watcher teardown, and the
WebSocket broadcast/heartbeat logic are embedded as executable Lean
functions, translated from `src/lib/jekyll-manager.ts`,
`src/pages/api/sites/[id]/serve.ts`, `src/pages/api/sites/create.ts`,
`src/pages/api/sites/[id]/build.ts`, `src/pages/api/sites/[id]/index.ts`
and `src/pages/api/websocket.ts`.  External process invocations
(`execAsync`), the generative collaborator's structure document, clock
readings and fresh uuids are passed in as explicit parameters.
-/

namespace JekyllStudio

/-- Site lifecycle status, from the `JekyllSite` interface in
`src/lib/jekyll-manager.ts`. -/
inductive Status where
  | creating
  | ready
  | building
  | serving
  | error
deriving DecidableEq, Repr

/-- A site record, from the `JekyllSite` interface in
`src/lib/jekyll-manager.ts`.  `Date` values are modelled as `Nat`
timestamps. -/
structure Site where
  id : String
  name : String
  path : String
  status : Status
  port : Option Nat
  createdAt : Nat
  lastBuilt : Option Nat
deriving DecidableEq, Repr

/-- The `BuildResult` interface of `src/lib/jekyll-manager.ts`. -/
structure BuildResult where
  success : Bool
  output : String
  error : Option String
  buildTime : Nat
deriving DecidableEq, Repr

/-- Why a `docker compose` invocation through `execAsync` rejected:
non-zero exit code, a thrown error (e.g. spawn failure), or the
configured timeout.  In all three cases node rejects the promise with an
error object that may carry captured `stdout`/`stderr` and a `message`. -/
inductive ExecFailureKind where
  | nonZeroExit
  | exception
  | timedOut
deriving DecidableEq, Repr

/-- The error object observed in a `catch` block around `execAsync`:
optional captured `stdout`/`stderr` and the error `message`. -/
structure ExecFailure where
  kind : ExecFailureKind
  stdout : Option String
  stderr : Option String
  message : String
deriving DecidableEq, Repr

/-- Outcome of one external `execAsync` invocation, supplied as a
parameter to the operations that shell out. -/
inductive ExecResult where
  | ok (stdout stderr : String)
  | failed (f : ExecFailure)
deriving DecidableEq, Repr

/-- Lifecycle events emitted on the manager's `EventEmitter`
(`siteStatusChanged`, `siteCreated`, `siteBuilt`, `siteServing`,
`siteStopped`, `siteDeleted`, `fileChanged`). -/
inductive Event where
  | siteStatusChanged (site : Site)
  | siteCreated (site : Site)
  | siteBuilt (site : Site)
  | siteServing (site : Site)
  | siteStopped (site : Site)
  | siteDeleted (site : Site)
  | fileChanged (site : Site) (filePath : String)
deriving DecidableEq, Repr

/-- JavaScript `a || b` on strings: the empty string is falsy. -/
def jsOrS (a b : String) : String :=
  if a == "" then b else a

/-- JavaScript `a || b` where `a` is a possibly captured string
(`error.stdout || ''`, `error.stderr || error.message`): `undefined` and
the empty string are both falsy. -/
def jsOrOpt (a : Option String) (b : String) : String :=
  match a with
  | some s => if s == "" then b else s
  | none => b

/-- Truthiness of the sanitized request `name` (`null` and `''` are
falsy). -/
def jsTruthyS (a : Option String) : Bool :=
  match a with
  | some s => s != ""
  | none => false

/-- `this.sites.get(siteId)`: look the site up by id. -/
def getSite (sites : List Site) (siteId : String) : Option Site :=
  sites.find? (fun s => s.id == siteId)

/-- `this.sites.set(site.id, site)`: replace the record stored under
`site.id`, or append it when the id is new. -/
def setSite (sites : List Site) (s : Site) : List Site :=
  if sites.any (fun t => t.id == s.id) then
    sites.map (fun t => if t.id == s.id then s else t)
  else
    sites ++ [s]

/-- The ports currently recorded on site records:
`Array.from(this.sites.values()).map(site => site.port).filter(port =>
port !== undefined)` in `findAvailablePort`. -/
def usedPorts (sites : List Site) : List Nat :=
  sites.filterMap (fun s => s.port)

/-- The `while (usedPorts.includes(port)) port++` loop of
`findAvailablePort`, with explicit fuel (the loop provably needs at most
`usedPorts.length + 1` probes). -/
def findFrom (used : List Nat) (port : Nat) : Nat → Nat
  | 0 => port
  | fuel + 1 => if port ∈ used then findFrom used (port + 1) fuel else port

/-- `findAvailablePort(startPort = 4000)` of `src/lib/jekyll-manager.ts`:
scan upward from `startPort` for the first port not recorded on any site
record. -/
def findAvailablePort (sites : List Site) (startPort : Nat) : Nat :=
  let used := usedPorts sites
  findFrom used startPort (used.length + 1)

/-- The record first inserted by `createSite`: status `creating`, no
port, the name resolved by `structure.name || siteData.name ||
`site-${siteId}`` and the path under the projects directory. -/
def initialSiteRecord (siteId dataName structName : String) (now : Nat) : Site :=
  let siteName := jsOrS structName (jsOrS dataName ("site-" ++ siteId))
  { id := siteId
    name := siteName
    path := "projects/" ++ siteName
    status := .creating
    port := none
    createdAt := now
    lastBuilt := none }

/-- `createSite(siteData, structure)` of `src/lib/jekyll-manager.ts`
(lines 44-82).  The fresh uuid, the current time, and whether the
on-disk materialization succeeded are parameters.  Returns the final
registry, the emitted events, the initially inserted record, and whether
the call threw (it rethrows the materialization error after recording
status `error`). -/
def createSite (sites : List Site) (siteId dataName structName : String)
    (now : Nat) (matOk : Bool) : List Site × List Event × Site × Bool :=
  let site0 := initialSiteRecord siteId dataName structName now
  let sites1 := setSite sites site0
  if matOk then
    let s := { site0 with status := .ready }
    (setSite sites1 s,
     [.siteStatusChanged site0, .siteStatusChanged s, .siteCreated s],
     site0, false)
  else
    let s := { site0 with status := .error }
    (setSite sites1 s, [.siteStatusChanged site0, .siteStatusChanged s],
     site0, true)

/-- Result of `buildSite`: either it threw `'Site not found'`, or it
resolved with a `BuildResult`. -/
inductive BuildOutcome where
  | notFoundErr
  | result (r : BuildResult)
deriving DecidableEq, Repr

/-- `buildSite(siteId)` of `src/lib/jekyll-manager.ts` (lines 87-131).
The outcome of the `docker compose run ... build` invocation (which runs
under a 120s timeout) is the `exec` parameter; `now` is the completion
time stamped into `lastBuilt`, `dur` the measured build duration. -/
def buildSite (sites : List Site) (siteId : String) (exec : ExecResult)
    (now dur : Nat) : List Site × List Event × BuildOutcome :=
  match getSite sites siteId with
  | none => (sites, [], .notFoundErr)
  | some site =>
    let b := { site with status := .building }
    let sites1 := setSite sites b
    match exec with
    | .ok stdout _ =>
      let s := { b with status := .ready, lastBuilt := some now }
      (setSite sites1 s,
       [.siteStatusChanged b, .siteStatusChanged s, .siteBuilt s],
       .result { success := true, output := stdout, error := none, buildTime := dur })
    | .failed f =>
      let s := { b with status := .error }
      (setSite sites1 s, [.siteStatusChanged b, .siteStatusChanged s],
       .result { success := false
                 output := jsOrOpt f.stdout ""
                 error := some (jsOrOpt f.stderr f.message)
                 buildTime := dur })

/-- Result of `serveSite`: threw `'Site not found'`, resolved with the
port, or rethrew the start failure after recording status `error`. -/
inductive ServeOutcome where
  | notFoundErr
  | served (port : Nat)
  | startFailed (msg : String)
deriving DecidableEq, Repr

/-- `serveSite(siteId, port?)` of `src/lib/jekyll-manager.ts` (lines
136-168).  `const servePort = port || await this.findAvailablePort()`:
an absent (or `0`, falsy) port argument triggers auto-allocation; an
explicit port is used verbatim.  The third component lists the ports at
which the external `docker compose run ... serve` command was invoked. -/
def serveSite (sites : List Site) (siteId : String) (portArg : Option Nat)
    (exec : ExecResult) : List Site × List Event × List Nat × ServeOutcome :=
  match getSite sites siteId with
  | none => (sites, [], [], .notFoundErr)
  | some site =>
    let servePort :=
      match portArg with
      | some p => if p == 0 then findAvailablePort sites 4000 else p
      | none => findAvailablePort sites 4000
    match exec with
    | .ok _ _ =>
      let s := { site with status := .serving, port := some servePort }
      (setSite sites s, [.siteStatusChanged s, .siteServing s], [servePort],
       .served servePort)
    | .failed f =>
      let s := { site with status := .error }
      (setSite sites s, [.siteStatusChanged s], [servePort],
       .startFailed f.message)

/-- `stopSite(siteId)` of `src/lib/jekyll-manager.ts` (lines 173-193).
Throws `'Site not found'` for an unknown id (the `Option String` is the
thrown message); when the `docker compose down` invocation fails the
error is caught and only logged, leaving the registry untouched. -/
def stopSite (sites : List Site) (siteId : String) (exec : ExecResult) :
    List Site × List Event × Option String :=
  match getSite sites siteId with
  | none => (sites, [], some "Site not found")
  | some site =>
    match exec with
    | .ok _ _ =>
      let s := { site with status := .ready, port := none }
      (setSite sites s, [.siteStatusChanged s, .siteStopped s], none)
    | .failed _ => (sites, [], none)

/-- `deleteSite(siteId)` of `src/lib/jekyll-manager.ts` (lines 250-267):
stop first when the site is `serving` (with `stopExec` the outcome of
that stop's external command), then remove the record and emit
`siteDeleted` with the (possibly stop-mutated) record. -/
def deleteSite (sites : List Site) (siteId : String) (stopExec : ExecResult) :
    List Site × List Event × Option String :=
  match getSite sites siteId with
  | none => (sites, [], some "Site not found")
  | some site =>
    let stopped :=
      if site.status = .serving then stopSite sites siteId stopExec
      else (sites, [], none)
    let sites1 := stopped.1
    let deleted := (getSite sites1 siteId).getD site
    (sites1.filter (fun s => !(s.id == siteId)),
     stopped.2.1 ++ [.siteDeleted deleted], none)

/-- Responses of the serve endpoint's POST branch
(`src/pages/api/sites/[id]/serve.ts`). -/
inductive ServeApiResponse where
  | notFound
  | badRequestPort
  | alreadyServing (currentPort : Option Nat)
  | served (port : Nat)
  | serverError (msg : String)
deriving DecidableEq, Repr

/-- The serve endpoint's request-port validation (`serve.ts` lines
38-44): `if (port && (typeof port !== 'number' || port < 3000 || port >
9999))` — a present, truthy port outside 3000..9999 is rejected. -/
def portInvalid (portArg : Option Nat) : Bool :=
  match portArg with
  | some p => p != 0 && (decide (p < 3000) || decide (p > 9999))
  | none => false

/-- POST handler of `src/pages/api/sites/[id]/serve.ts`: 404 for an
unknown id, 400 for an invalid explicit port, 409 with the current port
when the site is already `serving`, otherwise delegate to
`serveSite`.  The third component lists ports at which a preview process
was started. -/
def servePostHandler (sites : List Site) (siteId : String)
    (portArg : Option Nat) (exec : ExecResult) :
    List Site × List Event × List Nat × ServeApiResponse :=
  match getSite sites siteId with
  | none => (sites, [], [], .notFound)
  | some site =>
    if portInvalid portArg then (sites, [], [], .badRequestPort)
    else if site.status = .serving then
      (sites, [], [], .alreadyServing site.port)
    else
      match serveSite sites siteId portArg exec with
      | (sites1, evs, sp, .served p) => (sites1, evs, sp, .served p)
      | (sites1, evs, sp, .startFailed m) => (sites1, evs, sp, .serverError m)
      | (sites1, evs, sp, .notFoundErr) =>
        (sites1, evs, sp, .serverError "Site not found")

/-- Responses of the serve endpoint's DELETE (stop) branch. -/
inductive StopApiResponse where
  | notFound
  | notServing
  | stopped
  | serverError (msg : String)
deriving DecidableEq, Repr

/-- DELETE handler of `src/pages/api/sites/[id]/serve.ts` (lines 81-89):
404 for an unknown id, 400 `'Site is not currently being served'` when
the status is not `serving`, otherwise delegate to `stopSite`. -/
def stopDeleteHandler (sites : List Site) (siteId : String)
    (exec : ExecResult) : List Site × List Event × StopApiResponse :=
  match getSite sites siteId with
  | none => (sites, [], .notFound)
  | some site =>
    if site.status = .serving then
      match stopSite sites siteId exec with
      | (sites1, evs, none) => (sites1, evs, .stopped)
      | (sites1, evs, some m) => (sites1, evs, .serverError m)
    else (sites, [], .notServing)

/-- Responses of `src/pages/api/sites/create.ts`. -/
inductive CreateApiResponse where
  | badRequestName
  | conflict
  | created (siteId : String)
  | serverError
deriving DecidableEq, Repr

/-- POST handler of `src/pages/api/sites/create.ts` (the creation
pipeline).  `nameArg` is the sanitized caller-supplied name (absent or
empty is falsy), `nameValid` the outcome of `validateSiteName` on a
provided name, `structName` the `name` of the structure document the
generative collaborator returned, `newId` the fresh uuid and `matOk`
whether materialization succeeded.  The name-collision check runs only
for a provided name; `createSite` is then invoked with
`{name: sanitizedName || structure.name}` and the structure, and the
site is built once afterwards. -/
def createHandler (sites : List Site) (nameArg : Option String)
    (nameValid : Bool) (structName newId : String) (now : Nat)
    (matOk : Bool) (buildExec : ExecResult) (dur : Nat) :
    List Site × List Event × CreateApiResponse :=
  let provided := jsTruthyS nameArg
  if provided && !nameValid then (sites, [], .badRequestName)
  else if provided && sites.any (fun s => s.name == nameArg.getD "") then
    (sites, [], .conflict)
  else
    let dataName := jsOrS (nameArg.getD "") structName
    match createSite sites newId dataName structName now matOk with
    | (sites1, evs1, _, true) => (sites1, evs1, .serverError)
    | (sites1, evs1, _, false) =>
      let built := buildSite sites1 newId buildExec now dur
      (built.1, evs1 ++ built.2.1, .created newId)

/-- POST handler of `src/pages/api/sites/[id]/build.ts`: 404 for an
unknown id, 409 when the status is already `building`, otherwise
delegate to `buildSite`. -/
def buildPostHandler (sites : List Site) (siteId : String)
    (exec : ExecResult) (now dur : Nat) :
    List Site × List Event × Option BuildResult :=
  match getSite sites siteId with
  | none => (sites, [], none)
  | some site =>
    if site.status = .building then (sites, [], none)
    else
      match buildSite sites siteId exec now dur with
      | (sites1, evs, .result r) => (sites1, evs, some r)
      | (sites1, evs, .notFoundErr) => (sites1, evs, none)

/-- DELETE handler of `src/pages/api/sites/[id]/index.ts`: stop the
site when it is serving (first external command outcome `exec1`), then
call `deleteSite` (which stops again if the site is still serving, with
outcome `exec2`). -/
def deleteHandler (sites : List Site) (siteId : String)
    (exec1 exec2 : ExecResult) : List Site × List Event × Bool :=
  match getSite sites siteId with
  | none => (sites, [], false)
  | some site =>
    let stopped :=
      if site.status = .serving then stopSite sites siteId exec1
      else (sites, [], none)
    match deleteSite stopped.1 siteId exec2 with
    | (sites2, evs2, none) => (sites2, stopped.2.1 ++ evs2, true)
    | (sites2, evs2, some _) => (sites2, stopped.2.1 ++ evs2, false)

/-- One caller-facing operation on the registry, as exposed by the HTTP
route layer; all external outcomes (uuid, clock, structure document,
process results) are recorded in the operation. -/
inductive Op where
  | createOp (nameArg : Option String) (nameValid : Bool)
      (structName newId : String) (now : Nat) (matOk : Bool)
      (buildExec : ExecResult) (dur : Nat)
  | buildOp (siteId : String) (exec : ExecResult) (now dur : Nat)
  | serveOp (siteId : String) (portArg : Option Nat) (exec : ExecResult)
  | stopOp (siteId : String) (exec : ExecResult)
  | delOp (siteId : String) (exec1 exec2 : ExecResult)
deriving DecidableEq, Repr

/-- The registry after executing one operation. -/
def applyOp (sites : List Site) : Op → List Site
  | .createOp nameArg nameValid structName newId now matOk buildExec dur =>
    (createHandler sites nameArg nameValid structName newId now matOk buildExec dur).1
  | .buildOp siteId exec now dur => (buildPostHandler sites siteId exec now dur).1
  | .serveOp siteId portArg exec => (servePostHandler sites siteId portArg exec).1
  | .stopOp siteId exec => (stopDeleteHandler sites siteId exec).1
  | .delOp siteId exec1 exec2 => (deleteHandler sites siteId exec1 exec2).1

/-- The registry after executing a sequence of operations from a given
start state. -/
def applyOps (sites : List Site) (ops : List Op) : List Site :=
  ops.foldl applyOp sites

/-- A `serveOp` that passes no explicit port (auto-allocation); other
operations qualify trivially. -/
def autoServe : Op → Bool
  | .serveOp _ portArg _ => portArg.isNone
  | _ => true

/-- No two distinct serving sites hold the same port. -/
def PortInv (sites : List Site) : Prop :=
  ∀ x ∈ sites, ∀ y ∈ sites, x.id ≠ y.id → x.status = .serving →
    y.status = .serving → x.port ≠ y.port

instance portInvDecidable (sites : List Site) : Decidable (PortInv sites) := by
  unfold PortInv
  infer_instance

/-- State of the file watchers created by `setupFileWatcher`
(`src/lib/jekyll-manager.ts` lines 407-423): each chokidar watcher,
in creation order, with the site id it watches and whether it is still
open, plus the indices of the watchers whose `once('siteStopped', ...)`
cleanup listener is still registered on the manager. -/
structure WatcherState where
  watchers : List (String × Bool)
  listeners : List Nat
deriving DecidableEq, Repr

/-- `setupFileWatcher(site)`: start a watcher for the site and register
a `once('siteStopped')` listener that closes it when the stopped site's
id matches. -/
def setupFileWatcher (st : WatcherState) (siteId : String) : WatcherState :=
  { watchers := st.watchers ++ [(siteId, true)]
    listeners := st.listeners ++ [st.watchers.length] }

/-- Emitting `siteStopped` on the manager: node's `EventEmitter` fires
every registered listener and removes each `once` listener after this
single firing.  A fired listener closes its watcher only when
`stoppedSite.id === site.id`; either way it is gone afterwards. -/
def emitSiteStopped (st : WatcherState) (stoppedId : String) : WatcherState :=
  { watchers := st.watchers.enum.map (fun p =>
      (p.2.1, if st.listeners.contains p.1 && p.2.1 == stoppedId then false
              else p.2.2))
    listeners := [] }

/-- An open watcher for a site emits `fileChanged` when a file under the
site's subtree changes; a closed one emits nothing. -/
def watcherCanEmit (st : WatcherState) (siteId : String) : Bool :=
  st.watchers.any (fun w => w.1 == siteId && w.2)

/-- A live WebSocket connection as tracked by `WebSocketManager` in
`src/pages/api/websocket.ts`: client id, heartbeat flag `isAlive`,
subscription set, and whether `readyState === WebSocket.OPEN` (only
open sockets are actually sent to by `sendToClient`). -/
structure Conn where
  id : String
  isAlive : Bool
  subscribedSites : List String
  readyOpen : Bool
deriving DecidableEq, Repr

/-- The client ids that `broadcast(message, filterFn)` actually delivers
to: every tracked client passing the filter whose socket is open
(`sendToClient` checks `readyState === WebSocket.OPEN`). -/
def recipients (conns : List Conn) (f : Conn → Bool) : List String :=
  (conns.filter (fun c => c.readyOpen && f c)).map (fun c => c.id)

/-- Fan-out of one manager event by `setupJekyllManagerListeners`
(`src/pages/api/websocket.ts` lines 191-247): `fileChanged` goes through
`broadcastToSiteSubscribers site.id` (filter: `ws.subscribedSites.has
(siteId)`); every other lifecycle event is broadcast unfiltered. -/
def dispatchEvent (conns : List Conn) : Event → List String
  | .fileChanged site _ =>
    recipients conns (fun c => c.subscribedSites.contains site.id)
  | .siteStatusChanged _ => recipients conns (fun _ => true)
  | .siteCreated _ => recipients conns (fun _ => true)
  | .siteBuilt _ => recipients conns (fun _ => true)
  | .siteServing _ => recipients conns (fun _ => true)
  | .siteStopped _ => recipients conns (fun _ => true)
  | .siteDeleted _ => recipients conns (fun _ => true)

/-- One heartbeat tick of `startHeartbeat` (`src/pages/api/websocket.ts`
lines 249-263): every client whose `isAlive` flag is still false is
terminated and removed from the set; every other client is marked
not-alive and pinged. -/
def heartbeatTick (conns : List Conn) : List Conn :=
  (conns.filter (fun c => c.isAlive)).map (fun c => { c with isAlive := false })

/-- A `pong` frame from client `cid` sets its `isAlive` flag
(`extWs.on('pong', ...)`). -/
def handlePong (conns : List Conn) (cid : String) : List Conn :=
  conns.map (fun c => if c.id == cid then { c with isAlive := true } else c)

/-- Heartbeat-relevant happenings between and at ticks. -/
inductive WsEv where
  | tick
  | pong (cid : String)
deriving DecidableEq, Repr

/-- Run the connection set through a sequence of ticks and pongs. -/
def runWs (conns : List Conn) (tr : List WsEv) : List Conn :=
  tr.foldl (fun cs ev =>
    match ev with
    | .tick => heartbeatTick cs
    | .pong cid => handlePong cs cid) conns

/-- Trace-side statement that client `cid` confirms every heartbeat
interval: before each `tick` in the trace it has ponged since the
previous tick (the flag starts true because a fresh connection is
created with `isAlive = true`). -/
def confirmsEachInterval (cid : String) : Bool → List WsEv → Bool
  | _, [] => true
  | ponged, .pong c :: rest =>
    confirmsEachInterval cid (ponged || c == cid) rest
  | ponged, .tick :: rest => ponged && confirmsEachInterval cid false rest

theorem mem_setSite {sites : List Site} {s x : Site}
    (hx : x ∈ setSite sites s) : x = s ∨ x ∈ sites := by
  unfold setSite at hx
  by_cases h : sites.any (fun t => t.id == s.id)
  · simp only [h, if_true] at hx
    obtain ⟨t, ht, hxt⟩ := List.mem_map.1 hx
    by_cases h2 : t.id == s.id
    · simp only [h2, if_true] at hxt
      exact Or.inl hxt.symm
    · simp only [h2, if_false] at hxt
      exact Or.inr (hxt ▸ ht)
  · simp only [h, if_false] at hx
    rcases List.mem_append.1 hx with h1 | h1
    · exact Or.inr h1
    · exact Or.inl (List.mem_singleton.1 h1)

theorem find?_map_replace (s : Site) :
    ∀ sites : List Site, sites.any (fun t => t.id == s.id) = true →
      (sites.map (fun t => if t.id == s.id then s else t)).find?
        (fun t => t.id == s.id) = some s := by
  intro sites
  induction sites with
  | nil => intro h; cases h
  | cons a rest ih =>
    intro h
    by_cases ha : (a.id == s.id) = true
    · rw [List.map_cons, if_pos ha]
      exact List.find?_cons_of_pos _ (by simp)
    · rw [List.map_cons, if_neg ha]
      have hstep : List.find? (fun t => t.id == s.id)
          (a :: rest.map (fun t => if t.id == s.id then s else t)) =
          List.find? (fun t => t.id == s.id)
            (rest.map (fun t => if t.id == s.id then s else t)) :=
        List.find?_cons_of_neg _ ha
      rw [hstep]
      have hrest : rest.any (fun t => t.id == s.id) = true := by
        rcases List.any_eq_true.1 h with ⟨t0, ht0, hid0⟩
        rcases List.mem_cons.1 ht0 with rfl | hmem
        · exact absurd hid0 ha
        · exact List.any_eq_true.2 ⟨t0, hmem, hid0⟩
      exact ih hrest

theorem getSite_setSite_self (sites : List Site) (s : Site) :
    getSite (setSite sites s) s.id = some s := by
  unfold getSite setSite
  by_cases h : sites.any (fun t => t.id == s.id)
  · rw [if_pos h]
    exact find?_map_replace s sites h
  · rw [if_neg h]
    rw [List.find?_append]
    have hnone : sites.find? (fun t => t.id == s.id) = none := by
      rw [List.find?_eq_none]
      intro x hx hpx
      exact h (List.any_eq_true.2 ⟨x, hx, hpx⟩)
    rw [hnone]
    simp

theorem port_mem_usedPorts {sites : List Site} {y : Site} {q : Nat}
    (hy : y ∈ sites) (hq : y.port = some q) : q ∈ usedPorts sites :=
  List.mem_filterMap.2 ⟨y, hy, hq⟩

theorem exists_free_within (used : List Nat) (start : Nat) :
    ∃ k, k < used.length + 1 ∧ (start + k) ∉ used := by
  by_contra hcon
  push_neg at hcon
  have hsub : ∀ a ∈ Finset.range (used.length + 1),
      start + a ∈ used.toFinset := by
    intro a ha
    exact List.mem_toFinset.2 (hcon a (Finset.mem_range.1 ha))
  have hinj : Set.InjOn (fun a => start + a) ↑(Finset.range (used.length + 1)) := by
    intro a _ b _ hab
    have hab2 : start + a = start + b := hab
    omega
  have hcard := Finset.card_le_card_of_injOn (fun a => start + a) hsub hinj
  have h1 : used.toFinset.card ≤ used.length := used.toFinset_card_le
  simp only [Finset.card_range] at hcard
  omega

theorem findFrom_spec (used : List Nat) :
    ∀ fuel start, (∃ k, k < fuel ∧ (start + k) ∉ used) →
      findFrom used start fuel ∉ used ∧
        ∀ q, start ≤ q → q < findFrom used start fuel → q ∈ used := by
  intro fuel
  induction fuel with
  | zero =>
    intro start h
    obtain ⟨k, hk, _⟩ := h
    omega
  | succ f ih =>
    intro start h
    by_cases hs : start ∈ used
    · have hnext : ∃ k, k < f ∧ (start + 1 + k) ∉ used := by
        obtain ⟨k, hk, hfree⟩ := h
        match k with
        | 0 => exact absurd hs (by simpa using hfree)
        | k' + 1 =>
          refine ⟨k', by omega, ?_⟩
          have heq : start + 1 + k' = start + (k' + 1) := by omega
          rw [heq]
          exact hfree
      have hres : findFrom used start (f + 1) = findFrom used (start + 1) f := by
        simp only [findFrom, if_pos hs]
      obtain ⟨h1, h2⟩ := ih (start + 1) hnext
      rw [hres]
      refine ⟨h1, fun q hq1 hq2 => ?_⟩
      rcases Nat.eq_or_lt_of_le hq1 with rfl | hlt
      · exact hs
      · exact h2 q hlt hq2
    · have hres : findFrom used start (f + 1) = start := by
        simp only [findFrom, if_neg hs]
      rw [hres]
      exact ⟨hs, fun q hq1 hq2 => absurd (Nat.lt_of_le_of_lt hq1 hq2) (Nat.lt_irrefl _)⟩

theorem findAvailablePort_spec (sites : List Site) (start : Nat) :
    findAvailablePort sites start ∉ usedPorts sites ∧
      ∀ q, start ≤ q → q < findAvailablePort sites start →
        q ∈ usedPorts sites := by
  unfold findAvailablePort
  exact findFrom_spec (usedPorts sites) (usedPorts sites).length.succ start
    (exists_free_within (usedPorts sites) start)

theorem findAvailablePort_not_mem (sites : List Site) (start : Nat) :
    findAvailablePort sites start ∉ usedPorts sites :=
  (findAvailablePort_spec sites start).1

theorem portInv_nil : PortInv [] := by
  intro x hx
  cases hx

theorem portInv_filter {sites : List Site} (f : Site → Bool)
    (h : PortInv sites) : PortInv (sites.filter f) := by
  intro x hx y hy hid hxs hys
  exact h x (List.mem_filter.1 hx).1 y (List.mem_filter.1 hy).1 hid hxs hys

theorem portInv_setSite_nonserving {sites : List Site} {s : Site}
    (h : PortInv sites) (hs : s.status ≠ .serving) :
    PortInv (setSite sites s) := by
  intro x hx y hy hid hxs hys
  rcases mem_setSite hx with rfl | hx'
  · exact absurd hxs hs
  rcases mem_setSite hy with rfl | hy'
  · exact absurd hys hs
  exact h x hx' y hy' hid hxs hys

theorem portInv_setSite_fresh {sites : List Site} {s : Site} {p : Nat}
    (h : PortInv sites) (hport : s.port = some p)
    (hp : p ∉ usedPorts sites) : PortInv (setSite sites s) := by
  have key : ∀ y ∈ sites, y.id ≠ s.id → s.port ≠ y.port := by
    intro y hy _ hc
    cases hyp : y.port with
    | none => rw [hyp] at hc; rw [hport] at hc; cases hc
    | some q =>
      rw [hyp, hport] at hc
      cases hc
      exact hp (port_mem_usedPorts hy hyp)
  intro x hx y hy hid hxs hys
  rcases mem_setSite hx with rfl | hx'
  · rcases mem_setSite hy with rfl | hy'
    · exact absurd rfl hid
    · exact key y hy' (fun hc => hid hc.symm)
  · rcases mem_setSite hy with rfl | hy'
    · intro hc
      exact key x hx' hid (hc.symm)
    · exact h x hx' y hy' hid hxs hys

theorem portInv_createSite (sites : List Site) (siteId dataName structName : String)
    (now : Nat) (matOk : Bool) (h : PortInv sites) :
    PortInv (createSite sites siteId dataName structName now matOk).1 := by
  unfold createSite
  cases matOk with
  | true =>
    simp only [if_true]
    exact portInv_setSite_nonserving
      (portInv_setSite_nonserving h (by simp [initialSiteRecord])) (by simp)
  | false =>
    simp only [Bool.false_eq_true, if_false]
    exact portInv_setSite_nonserving
      (portInv_setSite_nonserving h (by simp [initialSiteRecord])) (by simp)

theorem portInv_buildSite (sites : List Site) (siteId : String)
    (exec : ExecResult) (now dur : Nat) (h : PortInv sites) :
    PortInv (buildSite sites siteId exec now dur).1 := by
  unfold buildSite
  cases hget : getSite sites siteId with
  | none => exact h
  | some site =>
    cases exec with
    | ok stdout stderr =>
      exact portInv_setSite_nonserving
        (portInv_setSite_nonserving h (by simp)) (by simp)
    | failed f =>
      exact portInv_setSite_nonserving
        (portInv_setSite_nonserving h (by simp)) (by simp)

theorem portInv_serveSite_auto (sites : List Site) (siteId : String)
    (exec : ExecResult) (h : PortInv sites) :
    PortInv (serveSite sites siteId none exec).1 := by
  unfold serveSite
  cases hget : getSite sites siteId with
  | none => exact h
  | some site =>
    cases exec with
    | ok stdout stderr =>
      exact portInv_setSite_fresh h rfl (findAvailablePort_not_mem sites 4000)
    | failed f =>
      exact portInv_setSite_nonserving h (by simp)

theorem portInv_stopSite (sites : List Site) (siteId : String)
    (exec : ExecResult) (h : PortInv sites) :
    PortInv (stopSite sites siteId exec).1 := by
  unfold stopSite
  cases hget : getSite sites siteId with
  | none => exact h
  | some site =>
    cases exec with
    | ok stdout stderr => exact portInv_setSite_nonserving h (by simp)
    | failed f => exact h

theorem portInv_deleteSite (sites : List Site) (siteId : String)
    (stopExec : ExecResult) (h : PortInv sites) :
    PortInv (deleteSite sites siteId stopExec).1 := by
  unfold deleteSite
  cases hget : getSite sites siteId with
  | none => exact h
  | some site =>
    by_cases hs : site.status = .serving
    · simp only [hs, if_true]
      exact portInv_filter _ (portInv_stopSite sites siteId stopExec h)
    · simp only [hs, if_false]
      exact portInv_filter _ h

theorem servePostHandler_fst (sites : List Site) (siteId : String)
    (portArg : Option Nat) (exec : ExecResult) :
    (servePostHandler sites siteId portArg exec).1 = sites ∨
      (servePostHandler sites siteId portArg exec).1 =
        (serveSite sites siteId portArg exec).1 := by
  unfold servePostHandler
  cases hget : getSite sites siteId with
  | none => left; rfl
  | some site =>
    dsimp only
    by_cases hp : portInvalid portArg = true
    · rw [if_pos hp]
      left; rfl
    · rw [if_neg hp]
      by_cases hs : site.status = .serving
      · rw [if_pos hs]
        left; rfl
      · rw [if_neg hs]
        rcases hsr : serveSite sites siteId portArg exec with ⟨s1, evs, sp, out⟩
        right
        cases out <;> rfl

theorem stopDeleteHandler_fst (sites : List Site) (siteId : String)
    (exec : ExecResult) :
    (stopDeleteHandler sites siteId exec).1 = sites ∨
      (stopDeleteHandler sites siteId exec).1 =
        (stopSite sites siteId exec).1 := by
  unfold stopDeleteHandler
  cases hget : getSite sites siteId with
  | none => left; rfl
  | some site =>
    dsimp only
    by_cases hs : site.status = .serving
    · rw [if_pos hs]
      rcases hsr : stopSite sites siteId exec with ⟨s1, evs, err⟩
      right
      cases err <;> rfl
    · rw [if_neg hs]
      left; rfl

theorem buildPostHandler_fst (sites : List Site) (siteId : String)
    (exec : ExecResult) (now dur : Nat) :
    (buildPostHandler sites siteId exec now dur).1 = sites ∨
      (buildPostHandler sites siteId exec now dur).1 =
        (buildSite sites siteId exec now dur).1 := by
  unfold buildPostHandler
  cases hget : getSite sites siteId with
  | none => left; rfl
  | some site =>
    dsimp only
    by_cases hb : site.status = .building
    · rw [if_pos hb]
      left; rfl
    · rw [if_neg hb]
      rcases hbr : buildSite sites siteId exec now dur with ⟨s1, evs, out⟩
      right
      cases out <;> rfl

theorem createHandler_fst (sites : List Site) (nameArg : Option String)
    (nameValid : Bool) (structName newId : String) (now : Nat)
    (matOk : Bool) (buildExec : ExecResult) (dur : Nat) :
    (createHandler sites nameArg nameValid structName newId now matOk buildExec dur).1
        = sites ∨
      (createHandler sites nameArg nameValid structName newId now matOk buildExec dur).1
        = (createSite sites newId (jsOrS (nameArg.getD "") structName)
            structName now matOk).1 ∨
      (createHandler sites nameArg nameValid structName newId now matOk buildExec dur).1
        = (buildSite (createSite sites newId (jsOrS (nameArg.getD "") structName)
            structName now matOk).1 newId buildExec now dur).1 := by
  unfold createHandler
  by_cases h1 : (jsTruthyS nameArg && !nameValid) = true
  · rw [if_pos h1]
    left; rfl
  · rw [if_neg h1]
    by_cases h2 : (jsTruthyS nameArg &&
        sites.any (fun s => s.name == nameArg.getD "")) = true
    · rw [if_pos h2]
      left; rfl
    · rw [if_neg h2]
      dsimp only
      rcases hcr : createSite sites newId (jsOrS (nameArg.getD "") structName)
          structName now matOk with ⟨s1, evs1, ins, threw⟩
      cases threw with
      | true =>
        right; left
        rfl
      | false =>
        right; right
        rfl

theorem deleteHandler_fst (sites : List Site) (siteId : String)
    (exec1 exec2 : ExecResult) :
    (deleteHandler sites siteId exec1 exec2).1 = sites ∨
      (deleteHandler sites siteId exec1 exec2).1 =
        (deleteSite sites siteId exec2).1 ∨
      (deleteHandler sites siteId exec1 exec2).1 =
        (deleteSite (stopSite sites siteId exec1).1 siteId exec2).1 := by
  unfold deleteHandler
  cases hget : getSite sites siteId with
  | none => left; rfl
  | some site =>
    dsimp only
    by_cases hs : site.status = .serving
    · rw [if_pos hs]
      rcases hd : deleteSite (stopSite sites siteId exec1).1 siteId exec2 with
        ⟨s2, evs2, err⟩
      right; right
      cases err <;> rfl
    · rw [if_neg hs]
      rcases hd : deleteSite sites siteId exec2 with ⟨s2, evs2, err⟩
      right; left
      cases err <;> rfl

theorem portInv_applyOp (sites : List Site) (op : Op)
    (h : PortInv sites) (ha : autoServe op = true) :
    PortInv (applyOp sites op) := by
  cases op with
  | createOp nameArg nameValid structName newId now matOk buildExec dur =>
    show PortInv (createHandler sites nameArg nameValid structName newId now
      matOk buildExec dur).1
    rcases createHandler_fst sites nameArg nameValid structName newId now
        matOk buildExec dur with he | he | he <;> rw [he]
    · exact h
    · exact portInv_createSite sites newId _ structName now matOk h
    · exact portInv_buildSite _ newId buildExec now dur
        (portInv_createSite sites newId _ structName now matOk h)
  | buildOp siteId exec now dur =>
    show PortInv (buildPostHandler sites siteId exec now dur).1
    rcases buildPostHandler_fst sites siteId exec now dur with he | he <;> rw [he]
    · exact h
    · exact portInv_buildSite sites siteId exec now dur h
  | serveOp siteId portArg exec =>
    have hnone : portArg = none := by
      cases portArg with
      | none => rfl
      | some p => simp [autoServe] at ha
    subst hnone
    show PortInv (servePostHandler sites siteId none exec).1
    rcases servePostHandler_fst sites siteId none exec with he | he <;> rw [he]
    · exact h
    · exact portInv_serveSite_auto sites siteId exec h
  | stopOp siteId exec =>
    show PortInv (stopDeleteHandler sites siteId exec).1
    rcases stopDeleteHandler_fst sites siteId exec with he | he <;> rw [he]
    · exact h
    · exact portInv_stopSite sites siteId exec h
  | delOp siteId exec1 exec2 =>
    show PortInv (deleteHandler sites siteId exec1 exec2).1
    rcases deleteHandler_fst sites siteId exec1 exec2 with he | he | he <;> rw [he]
    · exact h
    · exact portInv_deleteSite sites siteId exec2 h
    · exact portInv_deleteSite _ siteId exec2
        (portInv_stopSite sites siteId exec1 h)

theorem portInv_applyOps (ops : List Op) :
    ∀ sites, PortInv sites → (∀ op ∈ ops, autoServe op = true) →
      PortInv (applyOps sites ops) := by
  induction ops with
  | nil =>
    intro sites h _
    exact h
  | cons op rest ih =>
    intro sites h hall
    have h1 := portInv_applyOp sites op h (hall op (List.mem_cons_self op rest))
    exact ih (applyOp sites op) h1
      (fun o ho => hall o (List.mem_cons_of_mem op ho))

theorem findFrom_ge (used : List Nat) :
    ∀ fuel start, start ≤ findFrom used start fuel := by
  intro fuel
  induction fuel with
  | zero =>
    intro start
    exact Nat.le_refl _
  | succ f ih =>
    intro start
    by_cases hs : start ∈ used
    · have hres : findFrom used start (f + 1) = findFrom used (start + 1) f := by
        simp only [findFrom, if_pos hs]
      rw [hres]
      exact Nat.le_trans (Nat.le_succ start) (ih (start + 1))
    · have hres : findFrom used start (f + 1) = start := by
        simp only [findFrom, if_neg hs]
      rw [hres]

theorem getSite_id {sites : List Site} {i : String} {s : Site}
    (h : getSite sites i = some s) : s.id = i := by
  unfold getSite at h
  have := List.find?_some h
  simpa using this

theorem getSite_setSite_of_id (sites : List Site) (s : Site) (i : String)
    (hi : s.id = i) : getSite (setSite sites s) i = some s := by
  rw [← hi]
  exact getSite_setSite_self sites s

theorem buildSite_preserves_mem {sites : List Site} {i : String} {s : Site}
    (exec : ExecResult) (now dur : Nat) (h : getSite sites i = some s) :
    ∃ t, getSite (buildSite sites i exec now dur).1 i = some t := by
  have hid := getSite_id h
  unfold buildSite
  rw [h]
  dsimp only
  cases exec with
  | ok o e => exact ⟨_, getSite_setSite_of_id _ _ i hid⟩
  | failed f => exact ⟨_, getSite_setSite_of_id _ _ i hid⟩

theorem recipients_subset_ids {conns : List Conn} {f : Conn → Bool} {x : String}
    (hx : x ∈ recipients conns f) : x ∈ conns.map (fun c => c.id) := by
  unfold recipients at hx
  obtain ⟨d, hd, hdx⟩ := List.mem_map.1 hx
  exact List.mem_map.2 ⟨d, (List.mem_filter.1 hd).1, hdx⟩

theorem recipients_mem (f : Conn → Bool) {conns : List Conn} {c : Conn}
    (hnd : (conns.map (fun x => x.id)).Nodup) (hc : c ∈ conns) :
    c.id ∈ recipients conns f ↔ (c.readyOpen = true ∧ f c = true) := by
  constructor
  · intro hmem
    unfold recipients at hmem
    obtain ⟨d, hd, hdx⟩ := List.mem_map.1 hmem
    obtain ⟨hdm, hdp⟩ := List.mem_filter.1 hd
    have hdc : d = c := List.inj_on_of_nodup_map hnd hdm hc hdx
    subst hdc
    rw [Bool.and_eq_true] at hdp
    exact hdp
  · intro ⟨h1, h2⟩
    unfold recipients
    exact List.mem_map.2 ⟨c, List.mem_filter.2 ⟨hc, by rw [h1, h2]; rfl⟩, rfl⟩

theorem heartbeatTick_removes {conns : List Conn} {c : Conn}
    (hnd : (conns.map (fun x => x.id)).Nodup) (hc : c ∈ conns)
    (hdead : c.isAlive = false) :
    c.id ∉ (heartbeatTick conns).map (fun x => x.id) := by
  intro hmem
  unfold heartbeatTick at hmem
  rw [List.map_map] at hmem
  obtain ⟨d, hd, hdx⟩ := List.mem_map.1 hmem
  obtain ⟨hdm, hdp⟩ := List.mem_filter.1 hd
  have hdc : d = c := List.inj_on_of_nodup_map hnd hdm hc hdx
  subst hdc
  rw [hdead] at hdp
  cases hdp

theorem dispatch_subset_ids {conns : List Conn} {ev : Event} {x : String}
    (hx : x ∈ dispatchEvent conns ev) : x ∈ conns.map (fun c => c.id) := by
  cases ev <;> exact recipients_subset_ids hx

theorem runWs_survives (cid : String) :
    ∀ tr : List WsEv, ∀ conns : List Conn, ∀ p : Bool,
      confirmsEachInterval cid p tr = true →
      (∃ c ∈ conns, c.id = cid ∧ c.isAlive = p) →
      ∃ c ∈ runWs conns tr, c.id = cid := by
  intro tr
  induction tr with
  | nil =>
    intro conns p _ hinv
    obtain ⟨c, hc, hid, _⟩ := hinv
    exact ⟨c, hc, hid⟩
  | cons ev rest ih =>
    intro conns p htr hinv
    obtain ⟨c, hc, hid, halive⟩ := hinv
    cases ev with
    | pong c' =>
      have hrun : runWs conns (.pong c' :: rest) = runWs (handlePong conns c') rest := rfl
      have htr2 : confirmsEachInterval cid (p || (c' == cid)) rest = true := htr
      rw [hrun]
      by_cases hcc : c.id == c'
      · have hupd : { c with isAlive := true } ∈ handlePong conns c' := by
          unfold handlePong
          refine List.mem_map.2 ⟨c, hc, ?_⟩
          dsimp only
          rw [if_pos hcc]
        have hc'cid : (c' == cid) = true := by
          have : c.id = c' := by
            simpa using hcc
          rw [← this, hid]
          simp
        rw [hc'cid, Bool.or_true] at htr2
        exact ih (handlePong conns c') true htr2
          ⟨{ c with isAlive := true }, hupd, hid, rfl⟩
      · have hupd : c ∈ handlePong conns c' := by
          unfold handlePong
          refine List.mem_map.2 ⟨c, hc, ?_⟩
          dsimp only
          rw [if_neg hcc]
        have hc'cid : (c' == cid) = false := by
          by_contra hcon
          have h1 : (c' == cid) = true := by
            cases hb : (c' == cid) with
            | true => rfl
            | false => exact absurd hb hcon
          have h2 : c' = cid := by simpa using h1
          apply hcc
          rw [hid, h2]
          simp
        rw [hc'cid, Bool.or_false] at htr2
        exact ih (handlePong conns c') p htr2 ⟨c, hupd, hid, halive⟩
    | tick =>
      have hrun : runWs conns (.tick :: rest) = runWs (heartbeatTick conns) rest := rfl
      have htr2 : (p && confirmsEachInterval cid false rest) = true := htr
      rw [Bool.and_eq_true] at htr2
      obtain ⟨hp, hrest⟩ := htr2
      rw [hrun]
      have hmem : { c with isAlive := false } ∈ heartbeatTick conns := by
        unfold heartbeatTick
        apply List.mem_map_of_mem
        exact List.mem_filter.2 ⟨hc, by rw [halive, hp]⟩
      exact ih (heartbeatTick conns) false hrest
        ⟨{ c with isAlive := false }, hmem, hid, rfl⟩

/-- Claim C1, as stated, is false on the code: the serve endpoint
accepts any explicit port in 3000..9999 without checking it against
other serving sites, so after creating two sites and serving both with
requested port 5000 the registry holds two distinct `serving` sites with
the same port. -/
theorem c1_counterexample :
    ¬ PortInv (applyOps []
      [Op.createOp none true "alpha" "id1" 0 true (.ok "" "") 1,
       Op.createOp none true "beta" "id2" 0 true (.ok "" "") 1,
       Op.serveOp "id1" (some 5000) (.ok "" ""),
       Op.serveOp "id2" (some 5000) (.ok "" "")]) := by
  decide

/-- Claim C1 (amended): after any sequence of Create/Build/Serve/Stop/
Delete operations in which every Serve call passes no explicit
requestedPort (so every port is auto-allocated by `findAvailablePort`),
no two distinct sites both in status `serving` hold the same port. -/
theorem c1_amended (ops : List Op)
    (h : ∀ op ∈ ops, autoServe op = true) :
    PortInv (applyOps [] ops) :=
  portInv_applyOps ops [] portInv_nil h

/-- Witness for `c1_amended` at a concrete two-operation trace. -/
theorem c1_amended_witness :
    (∀ op ∈ [Op.createOp none true "alpha" "id1" 0 true (.ok "" "") 1,
             Op.serveOp "id1" none (.ok "" "")], autoServe op = true)
    ∧ PortInv (applyOps []
        [Op.createOp none true "alpha" "id1" 0 true (.ok "" "") 1,
         Op.serveOp "id1" none (.ok "" "")]) :=
  ⟨by decide, c1_amended
    [Op.createOp none true "alpha" "id1" 0 true (.ok "" "") 1,
     Op.serveOp "id1" none (.ok "" "")] (by decide)⟩

/-- Claim C2: for every registered site whose status is not `serving`,
the stop endpoint (DELETE) answers `notServing` (HTTP 400, `'Site is not
currently being served'`) and leaves the whole registry — in particular
the site's record with all its fields — unchanged, emitting no event,
whatever the external command would have done. -/
theorem c2_stop_nonserving (sites : List Site) (siteId : String)
    (site : Site) (exec : ExecResult)
    (hget : getSite sites siteId = some site)
    (hns : site.status ≠ .serving) :
    stopDeleteHandler sites siteId exec = (sites, [], .notServing) := by
  unfold stopDeleteHandler
  rw [hget]
  dsimp only
  rw [if_neg hns]

/-- Witness for `c2_stop_nonserving` at a concrete `ready` site. -/
theorem c2_stop_nonserving_witness :
    getSite [⟨"a", "demo", "projects/demo", .ready, none, 0, none⟩] "a"
        = some ⟨"a", "demo", "projects/demo", .ready, none, 0, none⟩
    ∧ (⟨"a", "demo", "projects/demo", .ready, none, 0, none⟩ : Site).status ≠ .serving
    ∧ stopDeleteHandler [⟨"a", "demo", "projects/demo", .ready, none, 0, none⟩]
        "a" (.ok "" "")
      = ([⟨"a", "demo", "projects/demo", .ready, none, 0, none⟩], [], .notServing) :=
  ⟨by decide, by decide,
   c2_stop_nonserving [⟨"a", "demo", "projects/demo", .ready, none, 0, none⟩]
     "a" ⟨"a", "demo", "projects/demo", .ready, none, 0, none⟩ (.ok "" "")
     (by decide) (by decide)⟩

/-- Claim C3, as stated, is false on the code: the serve endpoint
validates the request port before its already-serving check, so a second
Serve call on a site serving on port 5000 that passes requestedPort
10000 answers `badRequestPort` (400), not `alreadyServing` with port
5000. -/
theorem c3_counterexample :
    (servePostHandler
        [⟨"a", "demo", "projects/demo", .serving, some 5000, 0, none⟩]
        "a" (some 10000) (.ok "" "")).2.2.2 = .badRequestPort
    ∧ (servePostHandler
        [⟨"a", "demo", "projects/demo", .serving, some 5000, 0, none⟩]
        "a" (some 10000) (.ok "" "")).2.2.2
      ≠ .alreadyServing (some 5000) := by
  exact ⟨by decide, by decide⟩

/-- Claim C3 (amended): for every site already `serving` on port p, a
second Serve call whose requestedPort — if supplied — passes the
3000..9999 validation fails with `alreadyServing` reporting the same
port p, starts no preview process (the spawned-port list is empty), and
leaves the registry unchanged with no event emitted; a second call with
an out-of-range port instead fails the port validation.  The conclusion
returns exactly the pre-call registry, so status and port are
untouched. -/
theorem c3_amended (sites : List Site) (siteId : String) (site : Site)
    (portArg : Option Nat) (p : Nat) (exec : ExecResult)
    (hget : getSite sites siteId = some site)
    (hserv : site.status = .serving) (hport : site.port = some p)
    (hvalid : portInvalid portArg = false) :
    servePostHandler sites siteId portArg exec
      = (sites, [], [], .alreadyServing (some p)) := by
  unfold servePostHandler
  rw [hget]
  dsimp only
  rw [if_neg (by rw [hvalid]; exact Bool.false_ne_true)]
  rw [if_pos hserv, hport]

/-- Witness for `c3_amended` at a concrete serving site and a portless
second call. -/
theorem c3_amended_witness :
    getSite [⟨"a", "demo", "projects/demo", .serving, some 5000, 0, none⟩] "a"
        = some ⟨"a", "demo", "projects/demo", .serving, some 5000, 0, none⟩
    ∧ (⟨"a", "demo", "projects/demo", .serving, some 5000, 0, none⟩ : Site).status
        = .serving
    ∧ (⟨"a", "demo", "projects/demo", .serving, some 5000, 0, none⟩ : Site).port
        = some 5000
    ∧ portInvalid none = false
    ∧ servePostHandler
        [⟨"a", "demo", "projects/demo", .serving, some 5000, 0, none⟩]
        "a" none (.ok "" "")
      = ([⟨"a", "demo", "projects/demo", .serving, some 5000, 0, none⟩], [], [],
         .alreadyServing (some 5000)) :=
  ⟨by decide, by decide, by decide, by decide,
   c3_amended [⟨"a", "demo", "projects/demo", .serving, some 5000, 0, none⟩]
     "a" ⟨"a", "demo", "projects/demo", .serving, some 5000, 0, none⟩
     none 5000 (.ok "" "") (by decide) (by decide) (by decide) (by decide)⟩

/-- Claim C4 names a real code bug: `setupFileWatcher` registers its
cleanup with `once('siteStopped', ...)`, so the listener is consumed by
the first stop event of any site.  With watchers for sites "A" and "B"
both active, stopping "B" and then "A" leaves "A"'s watcher open — its
listener was used up (without closing, id mismatch) by "B"'s stop — so
after "A" has stopped, "A"'s watcher can still emit `fileChanged`,
contradicting the claim (and the code's own cleanup comment). -/
theorem c4_watcher_leak :
    (emitSiteStopped (emitSiteStopped
        (setupFileWatcher (setupFileWatcher ⟨[], []⟩ "A") "B") "B") "A").watchers
      = [("A", true), ("B", false)]
    ∧ watcherCanEmit (emitSiteStopped (emitSiteStopped
        (setupFileWatcher (setupFileWatcher ⟨[], []⟩ "A") "B") "B") "A") "A"
      = true := by
  exact ⟨by decide, by decide⟩

/-- Claim C5, as stated, is false on the code: the name-collision check
runs only for a caller-supplied name.  With a live site named "my-site"
already registered, a Create invocation with no caller name whose
generated structure document is named "my-site" does not fail with a
conflict — it inserts a second live record with the same name. -/
theorem c5_counterexample :
    (createHandler
        ((createHandler [] none true "my-site" "id1" 0 true (.ok "" "") 1).1)
        none true "my-site" "id2" 2 true (.ok "" "") 1).2.2
      ≠ .conflict
    ∧ ((createHandler
        ((createHandler [] none true "my-site" "id1" 0 true (.ok "" "") 1).1)
        none true "my-site" "id2" 2 true (.ok "" "") 1).1.filter
          (fun s => s.name == "my-site")).length = 2 := by
  exact ⟨by decide, by decide⟩

/-- Claim C5 (amended): Create fails with a name conflict and inserts
nothing exactly when a caller-supplied (truthy, validated) name collides
with an existing live site; a collision of the structure-document name
is not detected.  In the no-conflict case (with materialization
succeeding) the call reports `created`, the new id is registered in the
resulting registry, and the record first written for it is the
`initialSiteRecord`, which carries status `creating`. -/
theorem c5_amended (sites : List Site) (nameArg : Option String)
    (structName newId : String) (now : Nat) (buildExec : ExecResult)
    (dur : Nat) :
    ((jsTruthyS nameArg = true ∧
        sites.any (fun s => s.name == nameArg.getD "") = true) →
      createHandler sites nameArg true structName newId now true buildExec dur
        = (sites, [], .conflict))
    ∧ (¬(jsTruthyS nameArg = true ∧
          sites.any (fun s => s.name == nameArg.getD "") = true) →
        (createHandler sites nameArg true structName newId now true buildExec dur).2.2
            = .created newId
        ∧ (∃ s, getSite
            (createHandler sites nameArg true structName newId now true buildExec dur).1
            newId = some s)
        ∧ getSite (setSite sites (initialSiteRecord newId
              (jsOrS (nameArg.getD "") structName) structName now)) newId
            = some (initialSiteRecord newId
              (jsOrS (nameArg.getD "") structName) structName now)
        ∧ (initialSiteRecord newId (jsOrS (nameArg.getD "") structName)
            structName now).status = .creating) := by
  constructor
  · intro ⟨h1, h2⟩
    unfold createHandler
    rw [if_neg (by rw [h1]; simp)]
    rw [if_pos (by rw [h1, h2]; rfl)]
  · intro hno
    have hcond : ¬(jsTruthyS nameArg &&
        sites.any (fun s => s.name == nameArg.getD "")) = true := by
      intro hc
      rw [Bool.and_eq_true] at hc
      exact hno hc
    constructor
    · unfold createHandler
      rw [if_neg (by rw [Bool.and_eq_true]; intro h; exact absurd h.2 (by simp))]
      rw [if_neg hcond]
      dsimp only
      rcases hcr : createSite sites newId (jsOrS (nameArg.getD "") structName)
          structName now true with ⟨s1, evs1, ins, threw⟩
      have hthrew : threw = false := by
        unfold createSite at hcr
        rw [if_pos rfl] at hcr
        exact (congrArg (fun q => q.2.2.2) hcr).symm
      subst hthrew
      rfl
    constructor
    · unfold createHandler
      rw [if_neg (by rw [Bool.and_eq_true]; intro h; exact absurd h.2 (by simp))]
      rw [if_neg hcond]
      dsimp only
      have hcr : createSite sites newId (jsOrS (nameArg.getD "") structName)
          structName now true
          = (setSite (setSite sites (initialSiteRecord newId
              (jsOrS (nameArg.getD "") structName) structName now))
              { initialSiteRecord newId (jsOrS (nameArg.getD "") structName)
                  structName now with status := .ready },
             [.siteStatusChanged (initialSiteRecord newId
                (jsOrS (nameArg.getD "") structName) structName now),
              .siteStatusChanged { initialSiteRecord newId
                (jsOrS (nameArg.getD "") structName) structName now with
                  status := .ready },
              .siteCreated { initialSiteRecord newId
                (jsOrS (nameArg.getD "") structName) structName now with
                  status := .ready }],
             initialSiteRecord newId (jsOrS (nameArg.getD "") structName)
               structName now, false) := by
        unfold createSite
        rw [if_pos rfl]
      rw [hcr]
      dsimp only
      apply buildSite_preserves_mem
      exact getSite_setSite_of_id _ _ newId rfl
    constructor
    · exact getSite_setSite_of_id _ _ newId rfl
    · rfl

/-- Witness for `c5_amended`: both branches instantiated — a provided
colliding name yields the conflict, and a fresh structure-derived name
is registered with `creating` as its first written status. -/
theorem c5_amended_witness :
    ((jsTruthyS (some "demo") = true ∧
        ([⟨"a", "demo", "projects/demo", .ready, none, 0, none⟩] : List Site).any
          (fun s => s.name == (some "demo").getD "") = true) →
      createHandler [⟨"a", "demo", "projects/demo", .ready, none, 0, none⟩]
          (some "demo") true "other" "id9" 7 true (.ok "" "") 1
        = ([⟨"a", "demo", "projects/demo", .ready, none, 0, none⟩], [], .conflict))
    ∧ ((jsTruthyS (some "demo") = true ∧
        ([⟨"a", "demo", "projects/demo", .ready, none, 0, none⟩] : List Site).any
          (fun s => s.name == (some "demo").getD "") = true)
        ∧ createHandler [⟨"a", "demo", "projects/demo", .ready, none, 0, none⟩]
            (some "demo") true "other" "id9" 7 true (.ok "" "") 1
          = ([⟨"a", "demo", "projects/demo", .ready, none, 0, none⟩], [], .conflict)) :=
  ⟨(c5_amended [⟨"a", "demo", "projects/demo", .ready, none, 0, none⟩]
      (some "demo") "other" "id9" 7 (.ok "" "") 1).1,
   ⟨⟨by decide, by decide⟩,
    (c5_amended [⟨"a", "demo", "projects/demo", .ready, none, 0, none⟩]
      (some "demo") "other" "id9" 7 (.ok "" "") 1).1 ⟨by decide, by decide⟩⟩⟩

/-- Claim C6: for every registered site, when the external build
invocation fails — non-zero exit, thrown error, or the 120s deadline,
all covered by the quantified `ExecFailure` — `buildSite` leaves the
site's status at `error` (never `building`), and resolves (rather than
throwing) with a `BuildResult` whose `success` is false and which
carries the captured stdout as `output` and stderr-or-message as
`error`. -/
theorem c6_build_failure (sites : List Site) (siteId : String)
    (site : Site) (f : ExecFailure) (now dur : Nat)
    (hget : getSite sites siteId = some site) :
    getSite (buildSite sites siteId (.failed f) now dur).1 siteId
        = some { site with status := .error }
    ∧ (buildSite sites siteId (.failed f) now dur).2.2
        = .result { success := false
                    output := jsOrOpt f.stdout ""
                    error := some (jsOrOpt f.stderr f.message)
                    buildTime := dur } := by
  have hid := getSite_id hget
  unfold buildSite
  rw [hget]
  dsimp only
  exact ⟨getSite_setSite_of_id _ _ siteId hid, rfl⟩

/-- Witness for `c6_build_failure` at a concrete `ready` site and a
non-zero-exit build failure. -/
theorem c6_build_failure_witness :
    getSite [⟨"a", "demo", "projects/demo", .ready, none, 0, none⟩] "a"
        = some ⟨"a", "demo", "projects/demo", .ready, none, 0, none⟩
    ∧ (getSite (buildSite [⟨"a", "demo", "projects/demo", .ready, none, 0, none⟩]
          "a" (.failed ⟨.nonZeroExit, some "partial", some "boom", "exit 1"⟩) 9 5).1 "a"
        = some ⟨"a", "demo", "projects/demo", .error, none, 0, none⟩
      ∧ (buildSite [⟨"a", "demo", "projects/demo", .ready, none, 0, none⟩]
          "a" (.failed ⟨.nonZeroExit, some "partial", some "boom", "exit 1"⟩) 9 5).2.2
        = .result ⟨false, "partial", some "boom", 5⟩) :=
  ⟨by decide,
   c6_build_failure [⟨"a", "demo", "projects/demo", .ready, none, 0, none⟩]
     "a" ⟨"a", "demo", "projects/demo", .ready, none, 0, none⟩
     ⟨.nonZeroExit, some "partial", some "boom", "exit 1"⟩ 9 5 (by decide)⟩

/-- Claim C7, as stated, is false on the code: `findAvailablePort`
avoids the ports recorded on all site records, not only on `serving`
ones.  A reachable registry — create "alpha", serve it (auto port 4000),
build it (status returns to `ready` but the port field is left at 4000),
create "beta" — has no serving site at all, yet the next auto allocation
returns 4001, not 4000. -/
theorem c7_counterexample :
    (∀ s ∈ applyOps []
        [Op.createOp none true "alpha" "idA" 0 true (.ok "" "") 1,
         Op.serveOp "idA" none (.ok "" ""),
         Op.buildOp "idA" (.ok "" "") 2 1,
         Op.createOp none true "beta" "idB" 3 true (.ok "" "") 1],
      s.status ≠ .serving)
    ∧ findAvailablePort (applyOps []
        [Op.createOp none true "alpha" "idA" 0 true (.ok "" "") 1,
         Op.serveOp "idA" none (.ok "" ""),
         Op.buildOp "idA" (.ok "" "") 2 1,
         Op.createOp none true "beta" "idB" 3 true (.ok "" "") 1]) 4000
      = 4001 := by
  exact ⟨by decide, by decide⟩

/-- Claim C7 (amended): for every registry state, the port chosen by an
auto-allocating Serve call is the smallest integer p ≥ 4000 such that no
site record currently holds p in its port field (this includes every
currently-serving site, but also stale ports left on non-serving
records); in a registry where no record holds a port the allocation is
4000. -/
theorem c7_amended (sites : List Site) :
    4000 ≤ findAvailablePort sites 4000
    ∧ findAvailablePort sites 4000 ∉ usedPorts sites
    ∧ (∀ q, 4000 ≤ q → q < findAvailablePort sites 4000 →
        q ∈ usedPorts sites)
    ∧ (usedPorts sites = [] → findAvailablePort sites 4000 = 4000) := by
  obtain ⟨h1, h2⟩ := findAvailablePort_spec sites 4000
  refine ⟨?_, h1, h2, ?_⟩
  · unfold findAvailablePort
    exact findFrom_ge _ _ _
  · intro hempty
    show findFrom (usedPorts sites) 4000 ((usedPorts sites).length + 1) = 4000
    rw [hempty]
    decide

/-- Witness for `c7_amended` at the empty registry. -/
theorem c7_amended_witness :
    usedPorts ([] : List Site) = []
    ∧ findAvailablePort ([] : List Site) 4000 = 4000 :=
  ⟨by decide, (c7_amended []).2.2.2 (by decide)⟩

/-- Claim C8: a published `fileChanged` event for site S is delivered to
a tracked connection (with its socket open, i.e. live) iff S is in its
subscription set at publish time, while every other lifecycle event —
`siteStatusChanged`, `siteCreated`, `siteBuilt`, `siteServing`,
`siteStopped`, `siteDeleted` — is delivered to every live connection
regardless of subscriptions. -/
theorem c8_broadcast_policy (conns : List Conn) (c : Conn) (site : Site)
    (fp : String) (hnd : (conns.map (fun x => x.id)).Nodup)
    (hc : c ∈ conns) :
    (c.id ∈ dispatchEvent conns (.fileChanged site fp) ↔
      (c.readyOpen = true ∧ c.subscribedSites.contains site.id = true))
    ∧ (c.id ∈ dispatchEvent conns (.siteStatusChanged site) ↔ c.readyOpen = true)
    ∧ (c.id ∈ dispatchEvent conns (.siteCreated site) ↔ c.readyOpen = true)
    ∧ (c.id ∈ dispatchEvent conns (.siteBuilt site) ↔ c.readyOpen = true)
    ∧ (c.id ∈ dispatchEvent conns (.siteServing site) ↔ c.readyOpen = true)
    ∧ (c.id ∈ dispatchEvent conns (.siteStopped site) ↔ c.readyOpen = true)
    ∧ (c.id ∈ dispatchEvent conns (.siteDeleted site) ↔ c.readyOpen = true) := by
  refine ⟨?_, ?_, ?_, ?_, ?_, ?_, ?_⟩
  · exact recipients_mem (fun d => d.subscribedSites.contains site.id) hnd hc
  all_goals simpa [dispatchEvent] using recipients_mem (fun _ => true) hnd hc

/-- Witness for `c8_broadcast_policy`: a subscribed and an unsubscribed
open connection, with a `fileChanged` event for the subscribed site. -/
theorem c8_broadcast_policy_witness :
    ((⟨"c1", true, ["s1"], true⟩ : Conn).id ∈ dispatchEvent
        [⟨"c1", true, ["s1"], true⟩, ⟨"c2", true, [], true⟩]
        (.fileChanged ⟨"s1", "demo", "projects/demo", .serving, some 4000, 0, none⟩ "f")
      ↔ ((⟨"c1", true, ["s1"], true⟩ : Conn).readyOpen = true
        ∧ (⟨"c1", true, ["s1"], true⟩ : Conn).subscribedSites.contains
            (⟨"s1", "demo", "projects/demo", .serving, some 4000, 0, none⟩ : Site).id
          = true)) :=
  (c8_broadcast_policy [⟨"c1", true, ["s1"], true⟩, ⟨"c2", true, [], true⟩]
    ⟨"c1", true, ["s1"], true⟩
    ⟨"s1", "demo", "projects/demo", .serving, some 4000, 0, none⟩ "f"
    (by decide) (by decide)).1

/-- Claim C9: a connection marked unconfirmed (its `isAlive` flag still
false) at a heartbeat tick is removed from the connection set at that
tick and — being out of the set — receives no further events from any
broadcast; a connection that pongs within every heartbeat interval of a
trace is still present after running the whole trace. -/
theorem c9_heartbeat :
    (∀ conns : List Conn, ∀ c : Conn,
        (conns.map (fun x => x.id)).Nodup → c ∈ conns →
        c.isAlive = false →
        c.id ∉ (heartbeatTick conns).map (fun x => x.id))
    ∧ (∀ conns : List Conn, ∀ c : Conn, ∀ ev : Event,
        (conns.map (fun x => x.id)).Nodup → c ∈ conns →
        c.isAlive = false →
        c.id ∉ dispatchEvent (heartbeatTick conns) ev)
    ∧ (∀ conns : List Conn, ∀ c : Conn, ∀ tr : List WsEv,
        c ∈ conns → c.isAlive = true →
        confirmsEachInterval c.id true tr = true →
        ∃ d ∈ runWs conns tr, d.id = c.id) := by
  refine ⟨?_, ?_, ?_⟩
  · intro conns c hnd hc hdead
    exact heartbeatTick_removes hnd hc hdead
  · intro conns c ev hnd hc hdead hm
    exact heartbeatTick_removes hnd hc hdead (dispatch_subset_ids hm)
  · intro conns c tr hc halive htr
    exact runWs_survives c.id tr conns true htr ⟨c, hc, rfl, halive⟩

/-- Witness for `c9_heartbeat`: an unconfirmed connection is removed by
the tick and receives no `siteCreated` broadcast afterwards, while a
connection that pongs each interval survives two ticks. -/
theorem c9_heartbeat_witness :
    ((⟨"c1", false, [], true⟩ : Conn).id ∉
        (heartbeatTick [⟨"c1", false, [], true⟩, ⟨"c2", true, [], true⟩]).map
          (fun x => x.id))
    ∧ ((⟨"c1", false, [], true⟩ : Conn).id ∉
        dispatchEvent
          (heartbeatTick [⟨"c1", false, [], true⟩, ⟨"c2", true, [], true⟩])
          (.siteCreated ⟨"s1", "demo", "projects/demo", .ready, none, 0, none⟩))
    ∧ (∃ d ∈ runWs [⟨"c1", true, [], true⟩] [.tick, .pong "c1", .tick],
        d.id = (⟨"c1", true, [], true⟩ : Conn).id) :=
  ⟨c9_heartbeat.1 [⟨"c1", false, [], true⟩, ⟨"c2", true, [], true⟩]
     ⟨"c1", false, [], true⟩ (by decide) (by decide) (by decide),
   c9_heartbeat.2.1 [⟨"c1", false, [], true⟩, ⟨"c2", true, [], true⟩]
     ⟨"c1", false, [], true⟩
     (.siteCreated ⟨"s1", "demo", "projects/demo", .ready, none, 0, none⟩)
     (by decide) (by decide) (by decide),
   c9_heartbeat.2.2 [⟨"c1", true, [], true⟩] ⟨"c1", true, [], true⟩
     [.tick, .pong "c1", .tick] (by decide) (by decide) (by decide)⟩

/-- Claim C10: when the external stop command fails, `stopSite` swallows
the error (nothing is thrown to the caller, no event) and leaves the registry —
including the site's `serving` status and recorded port — unchanged;
`deleteSite` on a serving site whose stop fails nevertheless removes the
record, emits `siteDeleted`, and reports no error. -/
theorem c10_stop_swallow_delete (sites : List Site) (siteId : String)
    (site : Site) (f : ExecFailure)
    (hget : getSite sites siteId = some site)
    (hserv : site.status = .serving) :
    stopSite sites siteId (.failed f) = (sites, [], none)
    ∧ deleteSite sites siteId (.failed f)
        = (sites.filter (fun s => !(s.id == siteId)),
           [.siteDeleted site], none) := by
  have hstop : stopSite sites siteId (.failed f) = (sites, [], none) := by
    unfold stopSite
    rw [hget]
  refine ⟨hstop, ?_⟩
  unfold deleteSite
  rw [hget]
  dsimp only
  rw [if_pos hserv, hstop]
  dsimp only
  rw [hget]
  rfl

/-- Witness for `c10_stop_swallow_delete` at a concrete serving site
with a failing stop command. -/
theorem c10_stop_swallow_delete_witness :
    getSite [⟨"a", "demo", "projects/demo", .serving, some 4000, 0, none⟩] "a"
        = some ⟨"a", "demo", "projects/demo", .serving, some 4000, 0, none⟩
    ∧ (stopSite [⟨"a", "demo", "projects/demo", .serving, some 4000, 0, none⟩]
          "a" (.failed ⟨.exception, none, none, "docker down failed"⟩)
        = ([⟨"a", "demo", "projects/demo", .serving, some 4000, 0, none⟩], [], none)
      ∧ deleteSite [⟨"a", "demo", "projects/demo", .serving, some 4000, 0, none⟩]
          "a" (.failed ⟨.exception, none, none, "docker down failed"⟩)
        = ([], [.siteDeleted ⟨"a", "demo", "projects/demo", .serving, some 4000, 0, none⟩],
           none)) :=
  ⟨by decide,
   c10_stop_swallow_delete
     [⟨"a", "demo", "projects/demo", .serving, some 4000, 0, none⟩] "a"
     ⟨"a", "demo", "projects/demo", .serving, some 4000, 0, none⟩
     ⟨.exception, none, none, "docker down failed"⟩ (by decide) (by decide)⟩

end JekyllStudio
